import Mathlib

/-!
Verification of the vGIC / IRQ-routing subsystem (src/xen-ports/arm-vgic.c and
src/xen-ports/arm64-irq.c) against its natural-language specification.

The C state and operations are shallowly embedded: the per-domain shadow state
`struct vgic_v3` becomes a Lean structure, the 1024-bit pending/active bitmaps
are modelled at bit granularity as functions `ℕ → Bool` (the Linux-style
`set_bit`/`clear_bit`/`test_bit` macros become pointwise update/query), and
calls into external collaborators (`vgic_vcpu_inject_irq`, the GIC hardware
writes) are recorded as events in an output list.  Machine integers are `ℕ`
with explicit `% 2^64` where 64-bit overflow matters.
-/

/-- Bits per `unsigned long` on the arm64 target. -/
def BITS_PER_LONG : ℕ := 64

/-- `BITS_TO_LONGS(n)`: number of `unsigned long` words backing an `n`-bit bitmap. -/
def BITS_TO_LONGS (n : ℕ) : ℕ := (n + (BITS_PER_LONG - 1)) / BITS_PER_LONG

/-- Word index touched by `set_bit`/`clear_bit`/`test_bit` for bit number `n`. -/
def bitWord (n : ℕ) : ℕ := n / BITS_PER_LONG

/-- Modelled from the spec: the distributor register offsets `GICD_CTLR` (0x000,
global-control) and `GICD_TYPER` (0x004, type-info) come from the external
header `asm/gic_v3_defs.h`, which is not under src/; the spec's register table
gives these offsets. -/
def GICD_CTLR : ℕ := 0x000

/-- Modelled from the spec: type-info register offset, see `GICD_CTLR`. -/
def GICD_TYPER : ℕ := 0x004

/-- Modelled from the spec: base physical address of the emulated distributor
window, defined in the external header `asm/gic_v3_defs.h` (not under src/).
Its concrete value is immaterial to the claims, which only compare offsets. -/
def GICD_BASE : ℕ := 0x08000000

/-- Shadow state of `struct vgic_v3` (arm-vgic.c lines 14-29).  The
`gicd_isenabler`/`gicd_icenabler`/`gicd_ipriorityr` arrays become index
functions over their word index; the two 1024-bit bitmaps become Boolean
predicates over the interrupt number. -/
@[ext]
structure vgic_v3 where
  gicd_ctlr : ℕ
  gicd_typer : ℕ
  gicd_isenabler : ℕ → ℕ
  gicd_icenabler : ℕ → ℕ
  gicd_ipriorityr : ℕ → ℕ
  gicr_ctlr : ℕ
  gicr_waker : ℕ
  pending_irqs : ℕ → Bool
  active_irqs : ℕ → Bool

/-- Calls the vGIC makes into external collaborators, recorded as events:
`vcpu_inject i virq` is a call `vgic_vcpu_inject_irq(vcpu i, virq)`. -/
inductive VgicEvent where
  | vcpu_inject (vcpuIdx : ℕ) (virq : ℕ)
deriving DecidableEq, Repr

/-- State built by `vgic_v3_init` (arm-vgic.c lines 32-48): `xzalloc` zeroes
every field, then `gicd_ctlr := 0` and `gicd_typer := 1023 << 5`. -/
def vgic_v3_init : vgic_v3 where
  gicd_ctlr := 0
  gicd_typer := 1023 <<< 5
  gicd_isenabler := fun _ => 0
  gicd_icenabler := fun _ => 0
  gicd_ipriorityr := fun _ => 0
  gicr_ctlr := 0
  gicr_waker := 0
  pending_irqs := fun _ => false
  active_irqs := fun _ => false

/-- `vgic_inject_irq` (arm-vgic.c lines 51-63): bail out if `virq >= 1024`;
otherwise set the pending bit and trigger delivery on `d->vcpu[0]`. -/
def vgic_inject_irq (s : vgic_v3) (virq : ℕ) : vgic_v3 × List VgicEvent :=
  if 1024 ≤ virq then
    (s, [])
  else
    ({ s with pending_irqs := fun n => if n = virq then true else s.pending_irqs n },
     [VgicEvent.vcpu_inject 0 virq])

/-- `vgic_eoi_irq` (arm-vgic.c lines 66-76): clear the active bit for `virq`
(no range check), then, if the pending bit is still set, re-invoke delivery on
the vcpu that signalled EOI.  `vcpuIdx` is the index of the `struct vcpu *v`
argument. -/
def vgic_eoi_irq (vcpuIdx : ℕ) (s : vgic_v3) (virq : ℕ) : vgic_v3 × List VgicEvent :=
  let s' := { s with active_irqs := fun n => if n = virq then false else s.active_irqs n }
  if s.pending_irqs virq then
    (s', [VgicEvent.vcpu_inject vcpuIdx virq])
  else
    (s', [])

/-- Word indices of the bitmap words touched by `vgic_eoi_irq`:
`clear_bit(virq, vgic->active_irqs)` then `test_bit(virq, vgic->pending_irqs)`,
each accessing word `virq / BITS_PER_LONG` of a `BITS_TO_LONGS(1024)`-word
array. -/
def vgic_eoi_word_accesses (virq : ℕ) : List ℕ :=
  [bitWord virq, bitWord virq]

/-- Modelled from the spec: the guest acknowledge step ("clears pending, sets
active, returns the virq identifier to the guest", spec section 4.4) is emulated
through a register read whose implementation is not under src/; only its effect
on the pending/active bitmaps is modelled. -/
def vgic_ack_irq (s : vgic_v3) (virq : ℕ) : vgic_v3 :=
  { s with
    pending_irqs := fun n => if n = virq then false else s.pending_irqs n
    active_irqs := fun n => if n = virq then true else s.active_irqs n }

/-- Per-interrupt enable bit for `v` in the `gicd_isenabler` shadow: bit
`v % 32` of 32-bit word `v / 32` (32 words cover 1024 interrupts). -/
def vgic_irq_enabled (s : vgic_v3) (v : ℕ) : Bool :=
  (s.gicd_isenabler (v / 32)).testBit (v % 32)

/-- `vgic_read_reg` (arm-vgic.c lines 79-95): inside the distributor window,
dispatch on the offset; `GICD_CTLR` and `GICD_TYPER` are the only recognized
registers, everything else (including addresses outside the window) reads as
zero. -/
def vgic_read_reg (s : vgic_v3) (addr : ℕ) : ℕ :=
  if GICD_BASE ≤ addr ∧ addr < GICD_BASE + 0x10000 then
    if addr - GICD_BASE = GICD_CTLR then s.gicd_ctlr
    else if addr - GICD_BASE = GICD_TYPER then s.gicd_typer
    else 0
  else 0

/-- `vgic_write_reg` (arm-vgic.c lines 98-110): inside the distributor window
only `GICD_CTLR` is handled (masked to its two enable bits); all other writes
fall through with no state change. -/
def vgic_write_reg (s : vgic_v3) (addr : ℕ) (val : ℕ) : vgic_v3 :=
  if GICD_BASE ≤ addr ∧ addr < GICD_BASE + 0x10000 then
    if addr - GICD_BASE = GICD_CTLR then { s with gicd_ctlr := val &&& 0x3 }
    else s
  else s

/-- `struct irq_desc` (arm64-irq.c lines 15-23).  The `action_list` radix tree
and the opaque `gic_channel` handle are not consulted by any routing claim and
are omitted; `affinity` (a `cpumask_t`) becomes a Boolean predicate over
physical CPU numbers. -/
structure irq_desc where
  irq : ℕ
  affinity : ℕ → Bool
  is_gic_sgi : Bool
  gic_irq_type : ℕ

/-- Hardware-facing actions of `irq_route_to_guest`, recorded as events:
the `ICC_SGI1R_EL1` system-register write, the redistributor PPI route and the
distributor SPI route. -/
inductive RouteEvent where
  | sgi_write (reg : ℕ)
  | route_ppi (targetCpu : ℕ) (irq : ℕ) (irqType : ℕ)
  | route_spi (irq : ℕ) (targetCpu : ℕ) (irqType : ℕ)
deriving DecidableEq, Repr

/-- The `sgi_reg` value built in the SGI branch of `irq_route_to_guest`
(arm64-irq.c lines 85-87): `(1ULL << 40) | (irq & 0xf) << 24 |
(1ULL << (target_cpu + 16))`, in 64-bit arithmetic. -/
def sgi_reg (target_cpu : ℕ) (irq : ℕ) : ℕ :=
  (1 <<< 40) ||| ((irq &&& 0xf) <<< 24) ||| ((1 <<< (target_cpu + 16)) % 2 ^ 64)

/-- The code's target-list encoding (arm64-irq.c line 87): the target-list bit
for physical CPU `cpu` sits at bit position `cpu + 16` of the directive. -/
def targetListBit (directive : ℕ) (cpu : ℕ) : Bool :=
  directive.testBit (cpu + 16)

/-- `irq_route_to_guest` (arm64-irq.c lines 72-110).  `descs` is the global
radix tree `irq_descs` as a partial map; `d` gives each vcpu's physical
processor (`d->vcpu[vcpu_id]->processor`).  Returns the updated table, the
hardware events issued, and the C return value (0 or -EINVAL = -22). -/
def irq_route_to_guest (descs : ℕ → Option irq_desc) (d : ℕ → ℕ)
    (irq : ℕ) (vcpu_id : ℕ) : (ℕ → Option irq_desc) × List RouteEvent × Int :=
  let target_cpu := d vcpu_id
  match descs irq with
  | none => (descs, [], -22)
  | some desc =>
    if desc.is_gic_sgi then
      (descs, [RouteEvent.sgi_write (sgi_reg target_cpu irq)], 0)
    else
      let ev := if irq < 32 then RouteEvent.route_ppi target_cpu irq desc.gic_irq_type
                else RouteEvent.route_spi irq target_cpu desc.gic_irq_type
      let desc' := { desc with
        affinity := fun c => if c = target_cpu then true else desc.affinity c }
      (fun i => if i = irq then some desc' else descs i, [ev], 0)

/-- Fixture: a descriptor table holding a shared (non-SGI) interrupt 100 whose
affinity currently contains exactly CPU 0. -/
def descsFixture : ℕ → Option irq_desc := fun i =>
  if i = 100 then
    some { irq := 100, affinity := fun c => decide (c = 0), is_gic_sgi := false,
           gic_irq_type := 0 }
  else none

/-- Fixture: a single-vcpu domain whose vcpu 0 runs on physical CPU 2. -/
def domFixture : ℕ → ℕ := fun _ => 2

/-- C1 (counterexample): in the freshly initialized shadow state the distributor
global-enable bits are clear and the per-interrupt enable bit for virq 5 is
clear, yet `vgic_inject_irq` still sets the pending bit and triggers delivery —
the claim that delivery occurs only when both enables are set is false. -/
theorem inject_delivers_despite_disabled_cex :
    vgic_v3_init.gicd_ctlr &&& 0x3 = 0 ∧
    vgic_irq_enabled vgic_v3_init 5 = false ∧
    (vgic_inject_irq vgic_v3_init 5).1.pending_irqs 5 = true ∧
    (vgic_inject_irq vgic_v3_init 5).2 = [VgicEvent.vcpu_inject 0 5] :=
  ⟨by decide, by rfl, by rfl, by rfl⟩

/-- C1 (amended): injection neither reads the distributor global-enable bits
nor the per-interrupt enable bit: for every in-range virq, even when the global
enable is clear or the per-interrupt enable bit is clear, `vgic_inject_irq`
sets the pending bit and triggers delivery. -/
theorem inject_ignores_enable_bits (s : vgic_v3) (virq : ℕ) (h : virq < 1024)
    (_hdis : s.gicd_ctlr &&& 0x3 = 0 ∨ vgic_irq_enabled s virq = false) :
    (vgic_inject_irq s virq).1.pending_irqs virq = true ∧
    (vgic_inject_irq s virq).2 = [VgicEvent.vcpu_inject 0 virq] := by
  unfold vgic_inject_irq
  rw [if_neg (by omega)]
  exact ⟨by simp, rfl⟩

/-- C1 (witness): the amended theorem applied at the initial state (both
enables clear) and virq 5. -/
theorem inject_ignores_enable_bits_witness :
    (vgic_inject_irq vgic_v3_init 5).1.pending_irqs 5 = true ∧
    (vgic_inject_irq vgic_v3_init 5).2 = [VgicEvent.vcpu_inject 0 5] :=
  inject_ignores_enable_bits vgic_v3_init 5 (by decide) (Or.inl (by decide))

/-- C2: `vgic_eoi_irq` always clears the active bit; when the pending bit is
set at that moment it re-invokes delivery on the EOI-ing vcpu and leaves the
pending bit set; hence after inject, acknowledge, re-assertion of the
still-asserted level source (a further inject), and EOI, the state is
observably Pending (pending set, active clear) and delivery was re-invoked. -/
theorem eoi_clears_active_and_retriggers_pending (vcpuIdx : ℕ) (s : vgic_v3) (virq : ℕ) :
    (vgic_eoi_irq vcpuIdx s virq).1.active_irqs virq = false ∧
    (s.pending_irqs virq = true →
      (vgic_eoi_irq vcpuIdx s virq).2 = [VgicEvent.vcpu_inject vcpuIdx virq] ∧
      (vgic_eoi_irq vcpuIdx s virq).1.pending_irqs virq = true) ∧
    (virq < 1024 →
      (vgic_eoi_irq vcpuIdx
        (vgic_inject_irq (vgic_ack_irq (vgic_inject_irq s virq).1 virq) virq).1
        virq).1.pending_irqs virq = true ∧
      (vgic_eoi_irq vcpuIdx
        (vgic_inject_irq (vgic_ack_irq (vgic_inject_irq s virq).1 virq) virq).1
        virq).1.active_irqs virq = false ∧
      (vgic_eoi_irq vcpuIdx
        (vgic_inject_irq (vgic_ack_irq (vgic_inject_irq s virq).1 virq) virq).1
        virq).2 = [VgicEvent.vcpu_inject vcpuIdx virq]) := by
  refine ⟨?_, fun hp => ?_, fun h => ?_⟩
  · unfold vgic_eoi_irq
    split <;> simp
  · unfold vgic_eoi_irq
    rw [hp]
    exact ⟨rfl, hp⟩
  · have h' : ¬ 1024 ≤ virq := by omega
    simp [vgic_inject_irq, vgic_ack_irq, vgic_eoi_irq, h']

/-- C2 (witness): with virq 40 pending, EOI re-invokes delivery; and the full
inject, acknowledge, re-assert, EOI scenario from the initial state leaves
virq 40 pending. -/
theorem eoi_clears_active_and_retriggers_pending_witness :
    (vgic_eoi_irq 0 (vgic_inject_irq vgic_v3_init 40).1 40).2 =
      [VgicEvent.vcpu_inject 0 40] ∧
    (vgic_eoi_irq 0
      (vgic_inject_irq (vgic_ack_irq (vgic_inject_irq vgic_v3_init 40).1 40) 40).1
      40).1.pending_irqs 40 = true :=
  ⟨((eoi_clears_active_and_retriggers_pending 0 (vgic_inject_irq vgic_v3_init 40).1 40).2.1
      (by rfl)).1,
   ((eoi_clears_active_and_retriggers_pending 0 vgic_v3_init 40).2.2 (by decide)).1⟩

/-- C3: from an Inactive state (pending and active both clear for virq), the
sequence inject, acknowledge, EOI with no reassertion in between returns virq
to Inactive: both bits clear and the EOI step triggers no re-delivery. -/
theorem inject_ack_eoi_returns_inactive (vcpuIdx : ℕ) (s : vgic_v3) (virq : ℕ)
    (h : virq < 1024) (_hp : s.pending_irqs virq = false)
    (_ha : s.active_irqs virq = false) :
    (vgic_eoi_irq vcpuIdx (vgic_ack_irq (vgic_inject_irq s virq).1 virq)
      virq).1.pending_irqs virq = false ∧
    (vgic_eoi_irq vcpuIdx (vgic_ack_irq (vgic_inject_irq s virq).1 virq)
      virq).1.active_irqs virq = false ∧
    (vgic_eoi_irq vcpuIdx (vgic_ack_irq (vgic_inject_irq s virq).1 virq)
      virq).2 = [] := by
  have h' : ¬ 1024 ≤ virq := by omega
  simp [vgic_inject_irq, vgic_ack_irq, vgic_eoi_irq, h']

/-- C3 (witness): the round trip at the initial state and virq 40. -/
theorem inject_ack_eoi_returns_inactive_witness :
    (vgic_eoi_irq 0 (vgic_ack_irq (vgic_inject_irq vgic_v3_init 40).1 40)
      40).1.pending_irqs 40 = false ∧
    (vgic_eoi_irq 0 (vgic_ack_irq (vgic_inject_irq vgic_v3_init 40).1 40)
      40).1.active_irqs 40 = false ∧
    (vgic_eoi_irq 0 (vgic_ack_irq (vgic_inject_irq vgic_v3_init 40).1 40)
      40).2 = [] :=
  inject_ack_eoi_returns_inactive 0 vgic_v3_init 40 (by decide) rfl rfl

/-- C4 (counterexample): for targetCpu 3, sgiId 5 the directive also has the
target-list bit for CPU 8 set (the SGI-ID field at bits 24-27 overlaps the
target-list bit positions cpu+16 for cpu >= 8), so the target-list does not
select exactly CPU 3 as claimed for every targetCpu and sgiId. -/
theorem sgi_target_list_extra_bit_cex :
    targetListBit (sgi_reg 3 5) 8 = true ∧ (8 : ℕ) ≠ 3 := by decide

/-- C4 (amended): for every targetCpu below 8 — so that the target bit stays
below the SGI-ID field at bits 24-27 — and every sgiId, the directive's
target-list bit for targetCpu is set and the target-list bit of every other
CPU below 8 is clear; in particular targetCpu 3, sgiId 5 selects exactly
CPU 3 among CPUs 0-7. -/
theorem sgi_target_list_exact_below_eight (target_cpu sgiId : ℕ) (h : target_cpu < 8) :
    targetListBit (sgi_reg target_cpu sgiId) target_cpu = true ∧
    ∀ c : ℕ, c < 8 → c ≠ target_cpu → targetListBit (sgi_reg target_cpu sgiId) c = false := by
  have key : ∀ c : ℕ, c < 8 →
      targetListBit (sgi_reg target_cpu sgiId) c = decide (target_cpu + 16 = c + 16) := by
    intro c hc
    unfold targetListBit sgi_reg
    have e1 : (1 : ℕ) <<< 40 = 2 ^ 40 := by rw [Nat.shiftLeft_eq, one_mul]
    have e2 : (1 : ℕ) <<< (target_cpu + 16) = 2 ^ (target_cpu + 16) := by
      rw [Nat.shiftLeft_eq, one_mul]
    rw [Nat.testBit_or, Nat.testBit_or, Nat.testBit_mod_two_pow, e1, e2,
      Nat.testBit_two_pow, Nat.testBit_shiftLeft, Nat.testBit_two_pow]
    have h40 : (40 : ℕ) ≠ c + 16 := by omega
    have h24 : ¬ (24 ≤ c + 16) := by omega
    have h64 : c + 16 < 2 ^ 64 ∧ c + 16 < 64 := by
      constructor <;> omega
    simp [h40, h24, h64.2]
  refine ⟨?_, fun c hc hne => ?_⟩
  · rw [key target_cpu h]
    simp
  · rw [key c hc]
    simp
    omega

/-- C4 (witness): the amended theorem at targetCpu 3, sgiId 5, with CPU 2 as
a sample non-target CPU. -/
theorem sgi_target_list_exact_below_eight_witness :
    targetListBit (sgi_reg 3 5) 3 = true ∧ targetListBit (sgi_reg 3 5) 2 = false :=
  ⟨(sgi_target_list_exact_below_eight 3 5 (by decide)).1,
   (sgi_target_list_exact_below_eight 3 5 (by decide)).2 2 (by decide) (by decide)⟩

/-- C5 (counterexample): starting from a table where shared interrupt 100 has
affinity {0}, routing it to a vcpu running on physical CPU 2 succeeds, yet the
read-back affinity still contains CPU 0 — `cpumask_set_cpu` adds the target, it
does not overwrite the mask, so the affinity is not the singleton {2}. -/
theorem route_affinity_not_singleton_cex :
    (match descsFixture 100 with
     | some dd => dd.affinity 0
     | none => false) = true ∧
    (irq_route_to_guest descsFixture domFixture 100 0).2.2 = 0 ∧
    (match (irq_route_to_guest descsFixture domFixture 100 0).1 100 with
     | some dd => dd.affinity 0
     | none => false) = true ∧
    (0 : ℕ) ≠ 2 :=
  ⟨rfl, rfl, rfl, by decide⟩

/-- C5 (amended): for every existing non-SGI descriptor, routing returns 0 and
updates the descriptor so that the target CPU's affinity bit is set while every
other CPU's affinity bit keeps its previous value — the target is added to the
affinity mask, not made its only member. -/
theorem route_adds_target_to_affinity (descs : ℕ → Option irq_desc) (d : ℕ → ℕ)
    (irq vcpu_id : ℕ) (desc : irq_desc) (hd : descs irq = some desc)
    (hsgi : desc.is_gic_sgi = false) :
    (irq_route_to_guest descs d irq vcpu_id).2.2 = 0 ∧
    (irq_route_to_guest descs d irq vcpu_id).1 irq =
      some { desc with
        affinity := fun c => if c = d vcpu_id then true else desc.affinity c } := by
  constructor <;> simp [irq_route_to_guest, hd, hsgi]

/-- C5 (witness): the amended theorem at the fixture (irq 100, previous
affinity {0}, target CPU 2): afterwards both CPU 2 and the pre-existing CPU 0
are in the affinity mask. -/
theorem route_adds_target_to_affinity_witness :
    (match (irq_route_to_guest descsFixture domFixture 100 0).1 100 with
     | some dd => dd.affinity 2 && dd.affinity 0
     | none => false) = true := by
  rw [(route_adds_target_to_affinity descsFixture domFixture 100 0
        { irq := 100, affinity := fun c => decide (c = 0), is_gic_sgi := false,
          gic_irq_type := 0 } rfl rfl).2]
  rfl

/-- C6: `vgic_inject_irq` succeeds for virq below 1024 (pending bit set,
delivery triggered) and for virq at or above 1024 takes the failure path,
returning with the state completely unchanged and no delivery. -/
theorem inject_range_check (s : vgic_v3) (virq : ℕ) :
    (virq < 1024 →
      (vgic_inject_irq s virq).1.pending_irqs virq = true ∧
      (vgic_inject_irq s virq).2 = [VgicEvent.vcpu_inject 0 virq]) ∧
    (1024 ≤ virq → vgic_inject_irq s virq = (s, [])) := by
  constructor
  · intro h
    unfold vgic_inject_irq
    rw [if_neg (by omega)]
    exact ⟨by simp, rfl⟩
  · intro h
    unfold vgic_inject_irq
    rw [if_pos h]

/-- C6 (witness): the range check at virq 50 (in range) and virq 2000 (out of
range, state unchanged). -/
theorem inject_range_check_witness :
    ((vgic_inject_irq vgic_v3_init 50).1.pending_irqs 50 = true ∧
      (vgic_inject_irq vgic_v3_init 50).2 = [VgicEvent.vcpu_inject 0 50]) ∧
    vgic_inject_irq vgic_v3_init 2000 = (vgic_v3_init, []) :=
  ⟨(inject_range_check vgic_v3_init 50).1 (by decide),
   (inject_range_check vgic_v3_init 2000).2 (by decide)⟩

/-- C7: injection is idempotent and coalescing: injecting an already-pending
virq leaves the state unchanged, a second inject of the same virq produces the
same bitmap state as a single inject, and the active bitmap is never touched
by injection. -/
theorem inject_idempotent (s : vgic_v3) (virq : ℕ) (h : virq < 1024) :
    (s.pending_irqs virq = true → (vgic_inject_irq s virq).1 = s) ∧
    (vgic_inject_irq (vgic_inject_irq s virq).1 virq).1 = (vgic_inject_irq s virq).1 ∧
    (vgic_inject_irq (vgic_inject_irq s virq).1 virq).1.active_irqs = s.active_irqs := by
  have key : ∀ t : vgic_v3, t.pending_irqs virq = true → (vgic_inject_irq t virq).1 = t := by
    intro t ht
    have hfn : (fun n => if n = virq then true else t.pending_irqs n) = t.pending_irqs := by
      funext n
      by_cases hn : n = virq
      · subst hn
        simp [ht]
      · simp [hn]
    unfold vgic_inject_irq
    rw [if_neg (by omega)]
    simp only [hfn]
  refine ⟨key s, ?_, ?_⟩
  · apply key
    unfold vgic_inject_irq
    rw [if_neg (by omega)]
    simp
  · simp [vgic_inject_irq, show ¬ 1024 ≤ virq from by omega]

/-- C7 (witness): injecting virq 50 a second time from the state in which it
is already pending leaves the state unchanged. -/
theorem inject_idempotent_witness :
    (vgic_inject_irq (vgic_inject_irq vgic_v3_init 50).1 50).1 =
      (vgic_inject_irq vgic_v3_init 50).1 :=
  (inject_idempotent (vgic_inject_irq vgic_v3_init 50).1 50 (by decide)).1 (by rfl)

/-- C8: relaxed register-emulation policy: any guest read of an address other
than the recognized global-control and type-info registers returns zero, and
any guest write to an address other than the recognized global-control
register leaves the entire shadow state unchanged. -/
theorem unrecognized_access_read_zero_write_ignored (s : vgic_v3) (addr val : ℕ)
    (h0 : addr ≠ GICD_BASE + GICD_CTLR) (h4 : addr ≠ GICD_BASE + GICD_TYPER) :
    vgic_read_reg s addr = 0 ∧ vgic_write_reg s addr val = s := by
  simp only [GICD_BASE, GICD_CTLR, GICD_TYPER] at h0 h4
  constructor
  · unfold vgic_read_reg GICD_BASE GICD_CTLR GICD_TYPER
    split_ifs <;> first | rfl | (exfalso; omega)
  · unfold vgic_write_reg GICD_BASE GICD_CTLR
    split_ifs <;> first | rfl | (exfalso; omega)

/-- C8 (witness): the unrecognized offset 8 inside the distributor window
reads as zero and absorbs a write without any state change. -/
theorem unrecognized_access_read_zero_write_ignored_witness :
    vgic_read_reg vgic_v3_init (GICD_BASE + 8) = 0 ∧
    vgic_write_reg vgic_v3_init (GICD_BASE + 8) 7 = vgic_v3_init :=
  unrecognized_access_read_zero_write_ignored vgic_v3_init (GICD_BASE + 8) 7
    (by decide) (by decide)

/-- C9: for every in-range virq and every shadow state — in particular
whatever routing targets were recorded elsewhere — injection triggers delivery
on the domain's vcpu with index 0 (`d->vcpu[0]`) and on no other vcpu. -/
theorem inject_targets_vcpu_zero (s : vgic_v3) (virq : ℕ) (h : virq < 1024) :
    (vgic_inject_irq s virq).2 = [VgicEvent.vcpu_inject 0 virq] := by
  unfold vgic_inject_irq
  rw [if_neg (by omega)]

/-- C9 (witness): injecting virq 100 delivers to vcpu 0. -/
theorem inject_targets_vcpu_zero_witness :
    (vgic_inject_irq vgic_v3_init 100).2 = [VgicEvent.vcpu_inject 0 100] :=
  inject_targets_vcpu_zero vgic_v3_init 100 (by decide)

/-- C10: the bitmap words accessed by `vgic_eoi_irq` (the `clear_bit` on the
active bitmap and the `test_bit` on the pending bitmap) lie inside the
`BITS_TO_LONGS(1024)`-word arrays exactly when virq < 1024; and the operation
itself applies its bit operations unconditionally — it clears the active bit
for any virq whatsoever, with no range check of its own. -/
theorem eoi_bitmap_access_in_bounds_iff (virq : ℕ) :
    ((vgic_eoi_word_accesses virq).all (fun w => decide (w < BITS_TO_LONGS 1024)) = true
      ↔ virq < 1024) ∧
    (∀ (vcpuIdx : ℕ) (s : vgic_v3),
      (vgic_eoi_irq vcpuIdx s virq).1.active_irqs virq = false) := by
  constructor
  · unfold vgic_eoi_word_accesses bitWord BITS_TO_LONGS BITS_PER_LONG
    simp only [List.all_cons, List.all_nil, Bool.and_true, Bool.and_self,
      decide_eq_true_eq]
    omega
  · intro vcpuIdx s
    unfold vgic_eoi_irq
    split <;> simp
